import Mathlib

/-!
Shallow embedding of `target_mongodb/sinks.py` (`MongoDbSink.process_batch`).

The batch sink maps each record of a batch to a MongoDB write operation:
with a declared key it builds `UpdateOne` upserts (converting `_id` values to
`ObjectId`, skipping records whose value does not convert), submits them as a
single unordered `bulk_write`, and otherwise inserts the whole batch via
`insert_many`.  Log emissions and the final reset of `context["records"]` are
modelled explicitly.  The storage backend is modelled abstractly but
faithfully to the pymongo driver: a completed unordered bulk call returns an
aggregate result carrying counts only, while per-operation write failures are
reported by raising `BulkWriteError` (with `ordered=False` the driver first
attempts every operation, then raises); `process_batch` has no exception
handler, so any raised error propagates out of it.
-/

set_option autoImplicit false

namespace TargetMongoDb

/-- A record field value (a Python value as used by the sink): `none` is
Python `None`, `str`/`int` are plain scalars, `oid s` is a native `ObjectId`
built from the 24-character hex string `s`, and `genOid n` is the `n`-th
freshly generated `ObjectId` (as produced by `ObjectId(None)`). -/
inductive Value where
  | none
  | str (s : String)
  | int (n : Int)
  | oid (s : String)
  | genOid (n : Nat)
  deriving DecidableEq, Repr

/-- A record: an ordered mapping from field names to values (a Python dict,
keys unique). -/
abbrev Rec := List (String × Value)

/-- `record.get(k)`: the value bound to `k`, if present. -/
def rget? (r : Rec) (k : String) : Option Value :=
  (r.find? (fun p => p.1 == k)).map (fun p => p.2)

/-- `record.get(k)` with Python's default: `None` when the field is absent. -/
def rget (r : Rec) (k : String) : Value :=
  (rget? r k).getD Value.none

/-- `record.pop(k, None)`: the record with the field `k` removed. -/
def rerase (r : Rec) (k : String) : Rec :=
  r.filter (fun p => !(p.1 == k))

/-- Hex digit as accepted by `bson.ObjectId` for 24-character hex strings. -/
def isHexChar (c : Char) : Bool :=
  c.isDigit || (97 ≤ c.toNat && c.toNat ≤ 102) || (65 ≤ c.toNat && c.toNat ≤ 70)

/-- Error message for a string that is not a valid `ObjectId`
(`bson.errors.InvalidId`). -/
def invalidIdMsg (s : String) : String :=
  s ++ " is not a valid ObjectId, it must be a 12-byte input or a 24-character hex string"

/-- Error message for a value of a type `ObjectId` does not accept
(`TypeError`). -/
def typeErrMsg : String :=
  "id must be an instance of (bytes, str, ObjectId), not int"

/-- `bson.objectid.ObjectId(v)`: converts `v` to a native identifier.
`None` generates a fresh identifier (consuming the freshness counter), a
24-character hex string converts, an existing `ObjectId` passes through, and
anything else raises.  Returns the converted value together with the next
freshness counter. -/
def ObjectId (fresh : Nat) : Value → Except String (Value × Nat)
  | Value.none => Except.ok (Value.genOid fresh, fresh + 1)
  | Value.str s =>
      if s.length == 24 && s.toList.all isHexChar then
        Except.ok (Value.oid s, fresh)
      else
        Except.error (invalidIdMsg s)
  | Value.int _ => Except.error typeErrMsg
  | Value.oid s => Except.ok (Value.oid s, fresh)
  | Value.genOid n => Except.ok (Value.genOid n, fresh)

/-- The update document of a `pymongo` write: the code always builds
`{"$set": record}` (a partial update); `replaceWith` is the full-document
replacement payload (`ReplaceOne`), which the code never builds. -/
inductive UpdateDoc where
  | set (fields : Rec)
  | replaceWith (doc : Rec)
  deriving DecidableEq, Repr

/-- A bulk write operation: `pymongo.UpdateOne(filter, update, upsert)`. -/
inductive WriteOp where
  | updateOne (filter : String × Value) (update : UpdateDoc) (upsert : Bool)
  deriving DecidableEq, Repr

/-- A call made to the storage backend. -/
inductive BackendCall where
  | bulkWrite (ops : List WriteOp) (ordered : Bool)
  | insertMany (docs : List Rec)
  deriving DecidableEq, Repr

/-- The aggregate result of a completed bulk call.  A returned
`pymongo.results.BulkWriteResult` carries counts only; it never carries
per-operation write errors (those are only available on a raised
`BulkWriteError`). -/
structure BulkWriteResult where
  modified_count : Nat
  upserted_count : Nat
  deriving DecidableEq, Repr

/-- An exception raised by the pymongo driver.  `bulkWriteError` is
`pymongo.errors.BulkWriteError`: with `ordered=False` the driver attempts
every operation of the submission and then raises it, carrying the
per-operation failures, whenever any operation failed.  `connectionFailure`
models transport-level errors (the spec's BackendUnavailable). -/
inductive MongoError where
  | bulkWriteError (writeErrors : List (Nat × String))
  | connectionFailure (msg : String)
  deriving DecidableEq, Repr

/-- The storage backend: a raised driver exception surfaces as
`Except.error` and, since `process_batch` has no exception handler, is
propagated; a completed submission returns its aggregate result. -/
structure Backend where
  bulkWrite : List WriteOp → Except MongoError BulkWriteResult
  insertMany : List Rec → Except MongoError Unit

/-- One emission of the sink's logger, carrying exactly the data the
corresponding f-string interpolates. -/
inductive LogEvent where
  | warnMalformed (value : Value) (error : String)
  | bulkInfo (updated : Nat) (upserted : Nat)
  | uploadInfo (count : Nat) (collection : String)
  deriving DecidableEq, Repr

/-- How Python renders a value inside an f-string. -/
def renderValue : Value → String
  | Value.none => "None"
  | Value.str s => s
  | Value.int n => toString n
  | Value.oid s => s
  | Value.genOid n => "generated-" ++ toString n

/-- The log message text, exactly as formatted by the code. -/
def LogEvent.render : LogEvent → String
  | LogEvent.warnMalformed v e =>
      "Malformed id: " ++ renderValue v ++ ". Skipping this record. Error: " ++ e
  | LogEvent.bulkInfo u p =>
      "Bulk write completed: " ++ toString u ++ " updated, " ++ toString p ++ " upserted."
  | LogEvent.uploadInfo n c =>
      "Uploaded " ++ toString n ++ " records into " ++ c

/-- Stream configuration: `self.key_properties` and `self.stream_name`. -/
structure Config where
  key_properties : List String
  stream_name : String

/-- The observable outcome of one `process_batch` call: the backend calls it
made, the logger emissions in order, and the value of `context["records"]`
after the call. -/
structure BatchResult where
  calls : List BackendCall
  logs : List LogEvent
  finalRecords : List Rec
  deriving DecidableEq, Repr

/-- One UTF-8 code unit rendered for `urllib.parse.quote`: unreserved ASCII
(letters, digits, `_ . - ~`) and the default-safe `/` pass through, all other
bytes become `%XX`. -/
def isSafeByte (n : Nat) : Bool :=
  (65 ≤ n && n ≤ 90) || (97 ≤ n && n ≤ 122) || (48 ≤ n && n ≤ 57) ||
    n == 95 || n == 46 || n == 45 || n == 126 || n == 47

/-- Upper-case hex digit of `n < 16`. -/
def hexDigitChar (n : Nat) : Char :=
  if n < 10 then Char.ofNat (48 + n) else Char.ofNat (55 + n)

/-- Percent-encode one byte. -/
def quoteByte (n : Nat) : String :=
  if isSafeByte n then String.singleton (Char.ofNat n)
  else String.mk ['%', hexDigitChar (n / 16), hexDigitChar (n % 16)]

/-- The UTF-8 encoding of one character, as a list of byte values. -/
def utf8Bytes (c : Char) : List Nat :=
  let n := c.toNat
  if n < 128 then [n]
  else if n < 2048 then [192 + n / 64, 128 + n % 64]
  else if n < 65536 then [224 + n / 4096, 128 + (n / 64) % 64, 128 + n % 64]
  else [240 + n / 262144, 128 + (n / 4096) % 64, 128 + (n / 64) % 64, 128 + n % 64]

/-- `urllib.parse.quote`: percent-encode a string over its UTF-8 bytes. -/
def quote (s : String) : String :=
  String.join (s.toList.map (fun c => String.join ((utf8Bytes c).map quoteByte)))

/-- The mapper loop of `process_batch` (the `for record in records` body of
the keyed branch): builds the `bulk_operations` list and the per-record skip
diagnostics, threading the `ObjectId` freshness counter.  For the key `_id`
the value is converted (skipping the record with a warning on failure) and the
`_id` field is popped from the record before the `$set` payload is built; any
other key is used raw. -/
def build_bulk_operations (primary_id : String) (fresh : Nat) :
    List Rec → List WriteOp × List LogEvent × Nat
  | [] => ([], [], fresh)
  | r :: rs =>
    let find_id := rget r primary_id
    if primary_id == "_id" then
      match ObjectId fresh find_id with
      | Except.error e =>
          let rest := build_bulk_operations primary_id fresh rs
          (rest.1, LogEvent.warnMalformed find_id e :: rest.2.1, rest.2.2)
      | Except.ok idAndFresh =>
          let rest := build_bulk_operations primary_id idAndFresh.2 rs
          (WriteOp.updateOne ("_id", idAndFresh.1) (UpdateDoc.set (rerase r "_id")) true :: rest.1,
           rest.2.1, rest.2.2)
    else
      let rest := build_bulk_operations primary_id fresh rs
      (WriteOp.updateOne (primary_id, find_id) (UpdateDoc.set r) true :: rest.1,
       rest.2.1, rest.2.2)

/-- `MongoDbSink.process_batch` (the batching/write logic; connection-string
assembly is configuration, out of scope).  With a declared key the records are
mapped to upsert operations and, when any exist, submitted as one unordered
`bulk_write` whose counts are logged; with no key the whole record list is
passed to `insert_many` unconditionally.  A summary line is always logged and
`context["records"]` is reset to `[]` before returning. -/
def process_batch (be : Backend) (cfg : Config) (records : List Rec) :
    Except MongoError BatchResult :=
  let collection_name := quote cfg.stream_name
  match cfg.key_properties with
  | primary_id :: _ =>
    let mapped := build_bulk_operations primary_id 0 records
    if mapped.1.isEmpty then
      Except.ok
        { calls := []
          logs := mapped.2.1 ++ [LogEvent.uploadInfo records.length collection_name]
          finalRecords := [] }
    else
      match be.bulkWrite mapped.1 with
      | Except.error e => Except.error e
      | Except.ok result =>
          Except.ok
            { calls := [BackendCall.bulkWrite mapped.1 false]
              logs := mapped.2.1 ++
                [LogEvent.bulkInfo result.modified_count result.upserted_count,
                 LogEvent.uploadInfo records.length collection_name]
              finalRecords := [] }
  | [] =>
    match be.insertMany records with
    | Except.error e => Except.error e
    | Except.ok _ =>
        Except.ok
          { calls := [BackendCall.insertMany records]
            logs := [LogEvent.uploadInfo records.length collection_name]
            finalRecords := [] }

/-- The updated/upserted counts actually reported across a log stream
(summing every bulk-completion line). -/
def reportedCounts (logs : List LogEvent) : Nat × Nat :=
  logs.foldl
    (fun acc e =>
      match e with
      | LogEvent.bulkInfo u p => (acc.1 + u, acc.2 + p)
      | _ => acc)
    (0, 0)

/-- MongoDB store semantics: `{k: v}` matches a document whose field `k`
equals `v`; for `v = None` this also matches a document missing the field,
as in MongoDB's null-query semantics. -/
def matchesFilter (d : Rec) (flt : String × Value) : Bool :=
  rget d flt.1 == flt.2

/-- Set one field of a document, in place if present, appended otherwise. -/
def setField : Rec → String → Value → Rec
  | [], k, v => [(k, v)]
  | p :: ps, k, v => if p.1 == k then (k, v) :: ps else p :: setField ps k v

/-- Apply a `$set` document: merge the given fields, leaving others alone. -/
def applySet (d : Rec) (fields : Rec) : Rec :=
  fields.foldl (fun acc kv => setField acc kv.1 kv.2) d

/-- Apply an update payload to one document. -/
def applyUpdate (d : Rec) : UpdateDoc → Rec
  | UpdateDoc.set fields => applySet d fields
  | UpdateDoc.replaceWith doc => doc

/-- The document seeded from the match filter when an upsert inserts. -/
def upsertBase (flt : String × Value) : Rec := [flt]

/-- `UpdateOne(filter, update, upsert=True)` against a store: update the
first matching document (`false` = updated), or, when none matches, append a
new document built from the filter plus the update (`true` = upserted). -/
def applyUpdateOne : List Rec → (String × Value) → UpdateDoc → List Rec × Bool
  | [], flt, u => ([applyUpdate (upsertBase flt) u], true)
  | d :: ds, flt, u =>
    if matchesFilter d flt then (applyUpdate d u :: ds, false)
    else
      let rest := applyUpdateOne ds flt u
      (d :: rest.1, rest.2)

/-- Whether a message contains `sub` as a contiguous substring. -/
def strContains (s sub : String) : Bool :=
  (List.range (s.length + 1)).any (fun i => sub.toList.isPrefixOf (s.toList.drop i))

/-! ### Unfolding lemmas for the mapper loop -/

theorem build_nil (pid : String) (fresh : Nat) :
    build_bulk_operations pid fresh [] = ([], [], fresh) := rfl

theorem build_cons (pid : String) (fresh : Nat) (r : Rec) (rs : List Rec) :
    build_bulk_operations pid fresh (r :: rs) =
      if pid == "_id" then
        match ObjectId fresh (rget r pid) with
        | Except.error e =>
            ((build_bulk_operations pid fresh rs).1,
             LogEvent.warnMalformed (rget r pid) e ::
               (build_bulk_operations pid fresh rs).2.1,
             (build_bulk_operations pid fresh rs).2.2)
        | Except.ok p =>
            (WriteOp.updateOne ("_id", p.1) (UpdateDoc.set (rerase r "_id")) true ::
               (build_bulk_operations pid p.2 rs).1,
             (build_bulk_operations pid p.2 rs).2.1,
             (build_bulk_operations pid p.2 rs).2.2)
      else
        (WriteOp.updateOne (pid, rget r pid) (UpdateDoc.set r) true ::
           (build_bulk_operations pid fresh rs).1,
         (build_bulk_operations pid fresh rs).2.1,
         (build_bulk_operations pid fresh rs).2.2) := rfl

theorem build_cons_id_error (fresh : Nat) (r : Rec) (rs : List Rec) (e : String)
    (h : ObjectId fresh (rget r "_id") = Except.error e) :
    build_bulk_operations "_id" fresh (r :: rs) =
      ((build_bulk_operations "_id" fresh rs).1,
       LogEvent.warnMalformed (rget r "_id") e ::
         (build_bulk_operations "_id" fresh rs).2.1,
       (build_bulk_operations "_id" fresh rs).2.2) := by
  rw [build_cons]
  simp [h]

theorem build_cons_id_ok (fresh : Nat) (r : Rec) (rs : List Rec) (v : Value) (f2 : Nat)
    (h : ObjectId fresh (rget r "_id") = Except.ok (v, f2)) :
    build_bulk_operations "_id" fresh (r :: rs) =
      (WriteOp.updateOne ("_id", v) (UpdateDoc.set (rerase r "_id")) true ::
         (build_bulk_operations "_id" f2 rs).1,
       (build_bulk_operations "_id" f2 rs).2.1,
       (build_bulk_operations "_id" f2 rs).2.2) := by
  rw [build_cons]
  simp [h]

theorem build_cons_other (pid : String) (fresh : Nat) (r : Rec) (rs : List Rec)
    (h : (pid == "_id") = false) :
    build_bulk_operations pid fresh (r :: rs) =
      (WriteOp.updateOne (pid, rget r pid) (UpdateDoc.set r) true ::
         (build_bulk_operations pid fresh rs).1,
       (build_bulk_operations pid fresh rs).2.1,
       (build_bulk_operations pid fresh rs).2.2) := by
  rw [build_cons]
  simp [h]

/-- Mapping a concatenation: the prefix is mapped first and the suffix is
mapped with the freshness counter the prefix left behind. -/
theorem build_append (pid : String) : ∀ (fresh : Nat) (xs ys : List Rec),
    build_bulk_operations pid fresh (xs ++ ys) =
      ((build_bulk_operations pid fresh xs).1 ++
         (build_bulk_operations pid (build_bulk_operations pid fresh xs).2.2 ys).1,
       (build_bulk_operations pid fresh xs).2.1 ++
         (build_bulk_operations pid (build_bulk_operations pid fresh xs).2.2 ys).2.1,
       (build_bulk_operations pid (build_bulk_operations pid fresh xs).2.2 ys).2.2)
  | fresh, [], ys => by simp [build_nil]
  | fresh, x :: xs, ys => by
    by_cases h : (pid == "_id") = true
    · have hpid : pid = "_id" := by simpa using h
      subst hpid
      cases hO : ObjectId fresh (rget x "_id") with
      | error e =>
        rw [List.cons_append, build_cons_id_error fresh x (xs ++ ys) e hO,
            build_cons_id_error fresh x xs e hO, build_append "_id" fresh xs ys]
        simp
      | ok p =>
        rw [List.cons_append,
            build_cons_id_ok fresh x (xs ++ ys) p.1 p.2 (by simpa using hO),
            build_cons_id_ok fresh x xs p.1 p.2 (by simpa using hO),
            build_append "_id" p.2 xs ys]
        simp
    · have hb : (pid == "_id") = false := by simpa using h
      rw [List.cons_append, build_cons_other pid fresh x (xs ++ ys) hb,
          build_cons_other pid fresh x xs hb, build_append pid fresh xs ys]
      simp

/-- Every record of a keyed batch becomes exactly one operation or exactly
one skip diagnostic. -/
theorem build_length (pid : String) : ∀ (fresh : Nat) (records : List Rec),
    (build_bulk_operations pid fresh records).1.length +
      (build_bulk_operations pid fresh records).2.1.length = records.length
  | _, [] => rfl
  | fresh, r :: rs => by
    by_cases h : (pid == "_id") = true
    · have hpid : pid = "_id" := by simpa using h
      subst hpid
      cases hO : ObjectId fresh (rget r "_id") with
      | error e =>
        have ih := build_length "_id" fresh rs
        rw [build_cons_id_error fresh r rs e hO]
        simp only [List.length_cons]
        omega
      | ok p =>
        have ih := build_length "_id" p.2 rs
        rw [build_cons_id_ok fresh r rs p.1 p.2 (by simpa using hO)]
        simp only [List.length_cons]
        omega
    · have hb : (pid == "_id") = false := by simpa using h
      have ih := build_length pid fresh rs
      rw [build_cons_other pid fresh r rs hb]
      simp only [List.length_cons]
      omega

/-- With a key other than `_id`, the mapper is a plain map: one raw-valued
upsert per record, no skips, no freshness consumption. -/
theorem build_other_map (pid : String) (h : (pid == "_id") = false) :
    ∀ (fresh : Nat) (records : List Rec),
    build_bulk_operations pid fresh records =
      (records.map (fun r => WriteOp.updateOne (pid, rget r pid) (UpdateDoc.set r) true),
       [], fresh)
  | fresh, [] => rfl
  | fresh, r :: rs => by
    rw [build_cons_other pid fresh r rs h, build_other_map pid h fresh rs]
    simp

/-! ### Lemmas about record and store operations -/

/-- A popped field is gone from the record. -/
theorem rget?_rerase (r : Rec) (k : String) : rget? (rerase r k) k = Option.none := by
  induction r with
  | nil => rfl
  | cons p ps ih =>
    by_cases h : (p.1 == k) = true
    · simpa [rerase, List.filter_cons, h] using ih
    · have hb : (p.1 == k) = false := by simpa using h
      simp only [rerase, List.filter_cons, hb, Bool.not_false, if_true]
      simp only [rget?, List.find?_cons, hb, rerase] at ih ⊢
      exact ih

/-- Setting one field leaves every other field as it was. -/
theorem rget?_setField (d : Rec) (k : String) (v : Value) (k2 : String)
    (h : (k2 == k) = false) : rget? (setField d k v) k2 = rget? d k2 := by
  have hkk2 : (k == k2) = false :=
    beq_eq_false_iff_ne.mpr (fun hEq => (beq_eq_false_iff_ne.mp h) hEq.symm)
  induction d with
  | nil => simp [setField, rget?, List.find?, hkk2]
  | cons p ps ih =>
    by_cases hp : (p.1 == k) = true
    · have hk : p.1 = k := beq_iff_eq.mp hp
      have hne2 : (p.1 == k2) = false := by rw [hk]; exact hkk2
      simp [setField, hp, rget?, List.find?_cons, hkk2, hne2]
    · have hb : (p.1 == k) = false := by simpa using hp
      by_cases hp2 : (p.1 == k2) = true
      · simp [setField, hb, rget?, List.find?_cons, hp2]
      · have hb2 : (p.1 == k2) = false := by simpa using hp2
        simp only [setField, hb, if_false]
        simpa [rget?, List.find?_cons, hb2] using ih

/-- `$set` semantics is a partial overwrite: a field absent from the `$set`
document keeps its stored value. -/
theorem applySet_rget : ∀ (fields : Rec) (d : Rec) (k : String),
    rget? fields k = Option.none → rget (applySet d fields) k = rget d k
  | [], _, _, _ => rfl
  | (k1, v1) :: fs, d, k, h => by
    have hk1 : (k1 == k) = false := by
      by_cases hc : (k1 == k) = true
      · simp [rget?, List.find?_cons, hc] at h
      · simpa using hc
    have hfs : rget? fs k = Option.none := by
      simpa [rget?, List.find?_cons, hk1] using h
    have hk1s : (k == k1) = false :=
      beq_eq_false_iff_ne.mpr (fun hEq => (beq_eq_false_iff_ne.mp hk1) hEq.symm)
    have step : applySet d ((k1, v1) :: fs) = applySet (setField d k1 v1) fs := rfl
    rw [step, applySet_rget fs (setField d k1 v1) k hfs]
    unfold rget
    rw [rget?_setField d k1 v1 k hk1s]

/-- An upsert whose filter matches nothing in the store appends one new
document (built from the filter plus the update) and reports an upsert. -/
theorem applyUpdateOne_noMatch : ∀ (store : List Rec) (flt : String × Value) (u : UpdateDoc),
    store.all (fun d => !(matchesFilter d flt)) = true →
    applyUpdateOne store flt u = (store ++ [applyUpdate (upsertBase flt) u], true)
  | [], _, _, _ => rfl
  | d :: ds, flt, u, h => by
    rw [List.all_cons, Bool.and_eq_true] at h
    have hd : matchesFilter d flt = false := by simpa using h.1
    have hds : ds.all (fun x => !(matchesFilter x flt)) = true := h.2
    simp only [applyUpdateOne, hd, if_false]
    rw [applyUpdateOne_noMatch ds flt u hds]
    simp

/-! ### Concrete fixtures used by witnesses and counterexamples -/

/-- A record with a well-formed 24-hex `_id`. -/
def recGood : Rec := [("_id", Value.str "507f1f77bcf86cd799439011"), ("name", Value.str "a")]

/-- A record whose `_id` value is not a valid identifier. -/
def recBad : Rec := [("_id", Value.str "bad"), ("name", Value.str "b")]

/-- A record with no `_id` field at all. -/
def recNoId : Rec := [("name", Value.str "c")]

/-- A record keyed by a non-reserved field. -/
def recSku : Rec := [("sku", Value.str "A1"), ("price", Value.int 10)]

/-- A backend on which every operation succeeds: the bulk call completes
reporting one upsert, and the insert call succeeds. -/
def beOk : Backend :=
  { bulkWrite := fun _ => Except.ok ⟨0, 1⟩
    insertMany := fun _ => Except.ok () }

/-- A backend whose unordered bulk call attempts all operations and then
raises `BulkWriteError` carrying one duplicate-key failure — how the pymongo
driver reports per-operation write failures. -/
def beDupRaise : Backend :=
  { bulkWrite := fun _ =>
      Except.error (MongoError.bulkWriteError [(0, "E11000 duplicate key error")])
    insertMany := fun _ => Except.ok () }

/-! ### The claims -/

/-- C1: with KeyDescriptor `_id`, a record whose `_id` value fails to
convert to a native identifier produces no write operation, emits one
diagnostic carrying the offending value and the conversion error, and every
other record of the batch (before and after it) is still mapped exactly as
it would have been — the batch is never aborted by a malformed key. -/
theorem c1_malformed_id_skipped (fresh : Nat) (pre : List Rec) (r : Rec) (post : List Rec)
    (e : String)
    (h : ObjectId (build_bulk_operations "_id" fresh pre).2.2 (rget r "_id") =
      Except.error e) :
    (build_bulk_operations "_id" fresh (pre ++ r :: post)).1 =
      (build_bulk_operations "_id" fresh pre).1 ++
        (build_bulk_operations "_id" (build_bulk_operations "_id" fresh pre).2.2 post).1 ∧
    (build_bulk_operations "_id" fresh (pre ++ r :: post)).2.1 =
      (build_bulk_operations "_id" fresh pre).2.1 ++
        LogEvent.warnMalformed (rget r "_id") e ::
          (build_bulk_operations "_id" (build_bulk_operations "_id" fresh pre).2.2 post).2.1 := by
  rw [build_append "_id" fresh pre (r :: post),
      build_cons_id_error (build_bulk_operations "_id" fresh pre).2.2 r post e h]
  exact ⟨rfl, rfl⟩

/-- C1 witness: the mapper on `[recGood, recBad]` drops the malformed
record, keeps the valid one, and records the diagnostic. -/
theorem c1_witness :
    ObjectId (build_bulk_operations "_id" 0 [recGood]).2.2 (rget recBad "_id") =
      Except.error (invalidIdMsg "bad") ∧
    (build_bulk_operations "_id" 0 ([recGood] ++ recBad :: [])).1 =
      (build_bulk_operations "_id" 0 [recGood]).1 ++
        (build_bulk_operations "_id" (build_bulk_operations "_id" 0 [recGood]).2.2 []).1 ∧
    (build_bulk_operations "_id" 0 ([recGood] ++ recBad :: [])).2.1 =
      (build_bulk_operations "_id" 0 [recGood]).2.1 ++
        LogEvent.warnMalformed (rget recBad "_id") (invalidIdMsg "bad") ::
          (build_bulk_operations "_id" (build_bulk_operations "_id" 0 [recGood]).2.2 []).2.1 :=
  ⟨rfl, c1_malformed_id_skipped 0 [recGood] recBad [] (invalidIdMsg "bad") rfl⟩

/-- C2: whenever `process_batch` returns, `context["records"]` has been
reset to the empty list — for every backend, configuration and batch,
including backends whose bulk result reports per-operation failures. -/
theorem c2_records_reset (be : Backend) (cfg : Config) (records : List Rec)
    (res : BatchResult) (h : process_batch be cfg records = Except.ok res) :
    res.finalRecords = [] := by
  obtain ⟨kp, sn⟩ := cfg
  unfold process_batch at h
  cases kp with
  | nil =>
    cases hi : Backend.insertMany be records with
    | error e => rw [hi] at h; exact Except.noConfusion h
    | ok u => rw [hi] at h; rw [← Except.ok.inj h]
  | cons pid kpr =>
    by_cases he : (build_bulk_operations pid 0 records).1.isEmpty = true
    · simp only [he, if_true] at h
      rw [← Except.ok.inj h]
    · simp only [he, if_false] at h
      cases hb : Backend.bulkWrite be (build_bulk_operations pid 0 records).1 with
      | error e => rw [hb] at h; exact Except.noConfusion h
      | ok result => rw [hb] at h; rw [← Except.ok.inj h]

/-- C2 witness: a concrete flush (with a skipped record in the batch) ends
with an empty buffer. -/
theorem c2_witness :
    process_batch beOk ⟨["_id"], "stream"⟩ [recGood, recBad] =
      Except.ok
        { calls := [BackendCall.bulkWrite
            [WriteOp.updateOne ("_id", Value.oid "507f1f77bcf86cd799439011")
              (UpdateDoc.set [("name", Value.str "a")]) true] false]
          logs := [LogEvent.warnMalformed (Value.str "bad") (invalidIdMsg "bad"),
                   LogEvent.bulkInfo 0 1,
                   LogEvent.uploadInfo 2 "stream"]
          finalRecords := [] } ∧
    ({ calls := [BackendCall.bulkWrite
        [WriteOp.updateOne ("_id", Value.oid "507f1f77bcf86cd799439011")
          (UpdateDoc.set [("name", Value.str "a")]) true] false]
       logs := [LogEvent.warnMalformed (Value.str "bad") (invalidIdMsg "bad"),
                LogEvent.bulkInfo 0 1,
                LogEvent.uploadInfo 2 "stream"]
       finalRecords := [] } : BatchResult).finalRecords = [] :=
  ⟨rfl, c2_records_reset beOk ⟨["_id"], "stream"⟩ [recGood, recBad] _ rfl⟩

/-- C3 counterexample: on a backend that reports a per-operation failure the
way the pymongo driver does — by raising `BulkWriteError` after attempting
the unordered submission — `process_batch` on a concrete one-record batch
propagates the error and produces no successful result at all (so the batch
IS treated as failed, no counts or summary are logged and the buffer is not
reset), refuting the claim that per-operation failures are folded into a
successful aggregate result. -/
theorem c3_counterexample :
    process_batch beDupRaise ⟨["_id"], "stream"⟩ [recGood] =
      Except.error (MongoError.bulkWriteError [(0, "E11000 duplicate key error")]) ∧
    (process_batch beDupRaise ⟨["_id"], "stream"⟩ [recGood]).toOption = Option.none :=
  ⟨rfl, rfl⟩

/-- C3 amended: when the unordered bulk call reports per-operation failures
it does so by raising `BulkWriteError` (after attempting every operation of
the submission); `process_batch` has no exception handler, so it propagates
that error unchanged — the flush fails, no counts or summary line are
logged, the buffer is not reset, and no further bulk call is made, so none
of the operations is retried. -/
theorem c3_bulk_error_propagated (be : Backend) (kpr : List String)
    (pid sn : String) (records : List Rec) (we : List (Nat × String))
    (hne : (build_bulk_operations pid 0 records).1.isEmpty = false)
    (hbe : Backend.bulkWrite be (build_bulk_operations pid 0 records).1 =
      Except.error (MongoError.bulkWriteError we)) :
    process_batch be ⟨pid :: kpr, sn⟩ records =
      Except.error (MongoError.bulkWriteError we) := by
  unfold process_batch
  simp only [hne, hbe]
  simp

/-- C3 witness: the duplicate-key `BulkWriteError` raised for a concrete
one-record batch propagates out of `process_batch`. -/
theorem c3_witness :
    (build_bulk_operations "_id" 0 [recGood]).1.isEmpty = false ∧
    Backend.bulkWrite beDupRaise (build_bulk_operations "_id" 0 [recGood]).1 =
      Except.error (MongoError.bulkWriteError [(0, "E11000 duplicate key error")]) ∧
    process_batch beDupRaise ⟨["_id"], "stream"⟩ [recGood] =
      Except.error (MongoError.bulkWriteError [(0, "E11000 duplicate key error")]) :=
  ⟨rfl, rfl,
   c3_bulk_error_propagated beDupRaise [] "_id" "stream" [recGood]
     [(0, "E11000 duplicate key error")] rfl rfl⟩

/-- C4 counterexample: for the empty batch with no KeyDescriptor the mapped
operation sequence is empty, yet `process_batch` still issues one
`insert_many` call to the storage backend — the claim's "no write call" is
false in the no-key branch. -/
theorem c4_counterexample :
    (process_batch beOk ⟨[], "s"⟩ ([] : List Rec)).map BatchResult.calls =
      Except.ok [BackendCall.insertMany []] ∧
    ([BackendCall.insertMany []] : List BackendCall) ≠ ([] : List BackendCall) :=
  ⟨rfl, by simp⟩

/-- C4 amended: with a KeyDescriptor, a batch whose mapped operation
sequence is empty makes no backend call and raises no error (only the skip
warnings and the summary line are logged); with no KeyDescriptor,
`process_batch` always makes exactly one `insert_many` call carrying the
record list — even when that list is empty. -/
theorem c4_empty_ops_behaviour (be : Backend) :
    (∀ (kpr : List String) (pid sn : String) (records : List Rec),
      (build_bulk_operations pid 0 records).1.isEmpty = true →
      process_batch be ⟨pid :: kpr, sn⟩ records =
        Except.ok
          { calls := []
            logs := (build_bulk_operations pid 0 records).2.1 ++
              [LogEvent.uploadInfo records.length (quote sn)]
            finalRecords := [] }) ∧
    (∀ (sn : String) (records : List Rec),
      Backend.insertMany be records = Except.ok () →
      process_batch be ⟨[], sn⟩ records =
        Except.ok
          { calls := [BackendCall.insertMany records]
            logs := [LogEvent.uploadInfo records.length (quote sn)]
            finalRecords := [] }) := by
  constructor
  · intro kpr pid sn records he
    unfold process_batch
    simp only [he]
    simp
  · intro sn records hi
    unfold process_batch
    simp only [hi]

/-- C4 witness: both branches at the empty batch — the keyed branch makes
no call, the keyless branch still calls `insert_many` on `[]`. -/
theorem c4_witness :
    (build_bulk_operations "_id" 0 ([] : List Rec)).1.isEmpty = true ∧
    process_batch beOk ⟨["_id"], "s"⟩ ([] : List Rec) =
      Except.ok { calls := [], logs := [LogEvent.uploadInfo 0 "s"], finalRecords := [] } ∧
    Backend.insertMany beOk ([] : List Rec) = Except.ok () ∧
    process_batch beOk ⟨[], "s"⟩ ([] : List Rec) =
      Except.ok
        { calls := [BackendCall.insertMany []]
          logs := [LogEvent.uploadInfo 0 "s"]
          finalRecords := [] } :=
  ⟨rfl, (c4_empty_ops_behaviour beOk).1 [] "_id" "s" [] rfl, rfl,
   (c4_empty_ops_behaviour beOk).2 "s" [] rfl⟩

/-- C5: with no KeyDescriptor, `process_batch` performs exactly one
`insert_many` call carrying every record of the batch verbatim (no key
inspection, no mutation, no upsert operations), and the reported
updated/upserted counts over its log stream are zero. -/
theorem c5_no_key_plain_insert (be : Backend) (sn : String) (records : List Rec)
    (h : Backend.insertMany be records = Except.ok ()) :
    process_batch be ⟨[], sn⟩ records =
      Except.ok
        { calls := [BackendCall.insertMany records]
          logs := [LogEvent.uploadInfo records.length (quote sn)]
          finalRecords := [] } ∧
    reportedCounts [LogEvent.uploadInfo records.length (quote sn)] = (0, 0) := by
  refine ⟨?_, rfl⟩
  unfold process_batch
  simp only [h]

/-- C5 witness: a two-record keyless batch is passed to `insert_many`
unchanged and no counts are reported. -/
theorem c5_witness :
    Backend.insertMany beOk [recSku, recNoId] = Except.ok () ∧
    process_batch beOk ⟨[], "items"⟩ [recSku, recNoId] =
      Except.ok
        { calls := [BackendCall.insertMany [recSku, recNoId]]
          logs := [LogEvent.uploadInfo 2 "items"]
          finalRecords := [] } ∧
    reportedCounts [LogEvent.uploadInfo 2 "items"] = (0, 0) :=
  ⟨rfl, (c5_no_key_plain_insert beOk "items" [recSku, recNoId] rfl).1,
   (c5_no_key_plain_insert beOk "items" [recSku, recNoId] rfl).2⟩

/-- C6: when the KeyDescriptor is `_id` and the value converts, the produced
operation is an upsert whose match filter is `{_id: convertedId}`, whose
update payload is the partial `$set` of the record with `_id` removed (so
the identifier is absent from the update document), and `$set` semantics
leaves every field not present in the payload untouched — not a
full-document replace. -/
theorem c6_id_upsert_shape (fresh f2 : Nat) (r : Rec) (rs : List Rec) (v : Value)
    (h : ObjectId fresh (rget r "_id") = Except.ok (v, f2)) :
    build_bulk_operations "_id" fresh (r :: rs) =
      (WriteOp.updateOne ("_id", v) (UpdateDoc.set (rerase r "_id")) true ::
         (build_bulk_operations "_id" f2 rs).1,
       (build_bulk_operations "_id" f2 rs).2.1,
       (build_bulk_operations "_id" f2 rs).2.2) ∧
    rget? (rerase r "_id") "_id" = Option.none ∧
    (∀ (d : Rec) (k : String), rget? (rerase r "_id") k = Option.none →
      rget (applyUpdate d (UpdateDoc.set (rerase r "_id"))) k = rget d k) :=
  ⟨build_cons_id_ok fresh r rs v f2 h, rget?_rerase r "_id",
   fun d k hk => applySet_rget (rerase r "_id") d k hk⟩

/-- C6 witness: the well-formed record maps to a `$set` upsert keyed by the
converted identifier, with `_id` gone from the payload. -/
theorem c6_witness :
    ObjectId 0 (rget recGood "_id") =
      Except.ok (Value.oid "507f1f77bcf86cd799439011", 0) ∧
    (build_bulk_operations "_id" 0 (recGood :: []) =
      (WriteOp.updateOne ("_id", Value.oid "507f1f77bcf86cd799439011")
         (UpdateDoc.set (rerase recGood "_id")) true ::
         (build_bulk_operations "_id" 0 ([] : List Rec)).1,
       (build_bulk_operations "_id" 0 ([] : List Rec)).2.1,
       (build_bulk_operations "_id" 0 ([] : List Rec)).2.2) ∧
     rget? (rerase recGood "_id") "_id" = Option.none ∧
     (∀ (d : Rec) (k : String), rget? (rerase recGood "_id") k = Option.none →
       rget (applyUpdate d (UpdateDoc.set (rerase recGood "_id"))) k = rget d k)) :=
  ⟨rfl, c6_id_upsert_shape 0 0 recGood [] (Value.oid "507f1f77bcf86cd799439011") rfl⟩

/-- C7 counterexample: a concrete batch with one skipped record emits
exactly three messages — the per-record warning, the updated/upserted line
and the summary line — and no single emitted message carries an aggregate
skipped count or a skip_reasons list (no message even mentions `skipped` or
`skip_reasons`), so no emitted result record contains all four of
updated/upserted/skipped/skip_reasons. -/
theorem c7_counterexample :
    (process_batch beOk ⟨["_id"], "my stream"⟩ [recGood, recBad]).map
        (fun res => res.logs.map LogEvent.render) =
      Except.ok
        ["Malformed id: bad. Skipping this record. Error: bad is not a valid ObjectId, it must be a 12-byte input or a 24-character hex string",
         "Bulk write completed: 0 updated, 1 upserted.",
         "Uploaded 2 records into my%20stream"] ∧
    (["Malformed id: bad. Skipping this record. Error: bad is not a valid ObjectId, it must be a 12-byte input or a 24-character hex string",
      "Bulk write completed: 0 updated, 1 upserted.",
      "Uploaded 2 records into my%20stream"].all
        (fun m => !(strContains m "skipped") && !(strContains m "skip_reasons"))) = true :=
  ⟨rfl, by set_option maxRecDepth 8192 in decide⟩

/-- C7 amended: after a keyed batch whose operations were submitted
successfully, the sink emits the per-record malformed-key warnings, one line
carrying the updated and upserted counts of the aggregate result, and one
summary line naming the original record count and the percent-encoded
collection name; skipped records surface only in the per-record warnings,
with no aggregate skipped count or skip_reasons list. -/
theorem c7_reporting (be : Backend) (kpr : List String) (pid sn : String)
    (records : List Rec) (result : BulkWriteResult)
    (hne : (build_bulk_operations pid 0 records).1.isEmpty = false)
    (hbe : Backend.bulkWrite be (build_bulk_operations pid 0 records).1 =
      Except.ok result) :
    (process_batch be ⟨pid :: kpr, sn⟩ records).map BatchResult.logs =
      Except.ok ((build_bulk_operations pid 0 records).2.1 ++
        [LogEvent.bulkInfo result.modified_count result.upserted_count,
         LogEvent.uploadInfo records.length (quote sn)]) ∧
    LogEvent.render (LogEvent.uploadInfo records.length (quote sn)) =
      "Uploaded " ++ toString records.length ++ " records into " ++ quote sn := by
  refine ⟨?_, rfl⟩
  unfold process_batch
  simp only [hne, hbe]
  simp [Except.map]

/-- C7 witness: the concrete reporting of a two-record batch with one
skipped record. -/
theorem c7_witness :
    (build_bulk_operations "_id" 0 [recGood, recBad]).1.isEmpty = false ∧
    Backend.bulkWrite beOk (build_bulk_operations "_id" 0 [recGood, recBad]).1 =
      Except.ok ⟨0, 1⟩ ∧
    (process_batch beOk ⟨["_id"], "my stream"⟩ [recGood, recBad]).map BatchResult.logs =
      Except.ok [LogEvent.warnMalformed (Value.str "bad") (invalidIdMsg "bad"),
                 LogEvent.bulkInfo 0 1,
                 LogEvent.uploadInfo 2 "my%20stream"] ∧
    LogEvent.render (LogEvent.uploadInfo 2 "my%20stream") =
      "Uploaded 2 records into my%20stream" :=
  ⟨rfl, rfl,
   (c7_reporting beOk [] "_id" "my stream" [recGood, recBad] ⟨0, 1⟩ rfl rfl).1,
   rfl⟩

/-- C8: with KeyDescriptor `_id`, a record with no `_id` field converts by
generating a fresh identifier: it is not skipped and no diagnostic is
emitted, its operation is an upsert whose filter carries the generated
identifier, and against any store in which that identifier matches no
document the upsert appends one new document. -/
theorem c8_missing_id_generated (fresh : Nat) (r : Rec) (rs : List Rec)
    (hmiss : rget? r "_id" = Option.none) :
    build_bulk_operations "_id" fresh (r :: rs) =
      (WriteOp.updateOne ("_id", Value.genOid fresh)
         (UpdateDoc.set (rerase r "_id")) true ::
         (build_bulk_operations "_id" (fresh + 1) rs).1,
       (build_bulk_operations "_id" (fresh + 1) rs).2.1,
       (build_bulk_operations "_id" (fresh + 1) rs).2.2) ∧
    (∀ (store : List Rec) (u : UpdateDoc),
      store.all (fun d => !(matchesFilter d ("_id", Value.genOid fresh))) = true →
      applyUpdateOne store ("_id", Value.genOid fresh) u =
        (store ++ [applyUpdate (upsertBase ("_id", Value.genOid fresh)) u], true)) := by
  constructor
  · have hv : rget r "_id" = Value.none := by simp [rget, hmiss]
    exact build_cons_id_ok fresh r rs (Value.genOid fresh) (fresh + 1) (by rw [hv]; rfl)
  · intro store u hall
    exact applyUpdateOne_noMatch store ("_id", Value.genOid fresh) u hall

/-- C8 witness: a record without `_id` gets the generated identifier and,
against a store not containing it, creates a new document. -/
theorem c8_witness :
    rget? recNoId "_id" = Option.none ∧
    (build_bulk_operations "_id" 0 (recNoId :: []) =
      (WriteOp.updateOne ("_id", Value.genOid 0)
         (UpdateDoc.set (rerase recNoId "_id")) true ::
         (build_bulk_operations "_id" 1 ([] : List Rec)).1,
       (build_bulk_operations "_id" 1 ([] : List Rec)).2.1,
       (build_bulk_operations "_id" 1 ([] : List Rec)).2.2) ∧
     (∀ (store : List Rec) (u : UpdateDoc),
       store.all (fun d => !(matchesFilter d ("_id", Value.genOid 0))) = true →
       applyUpdateOne store ("_id", Value.genOid 0) u =
         (store ++ [applyUpdate (upsertBase ("_id", Value.genOid 0)) u], true))) :=
  ⟨rfl, c8_missing_id_generated 0 recNoId [] rfl⟩

/-- C9: with a non-`_id` KeyDescriptor the mapper never validates and never
skips: it is a plain map sending each record to an upsert on the raw key
value, a record missing the key field gets the filter value `None`, and any
two records missing the key field produce the same match filter. -/
theorem c9_non_id_key_raw (pid : String) (fresh : Nat) (records : List Rec)
    (h : (pid == "_id") = false) :
    build_bulk_operations pid fresh records =
      (records.map (fun r => WriteOp.updateOne (pid, rget r pid) (UpdateDoc.set r) true),
       [], fresh) ∧
    (∀ r : Rec, rget? r pid = Option.none → rget r pid = Value.none) ∧
    (∀ r1 r2 : Rec, rget? r1 pid = Option.none → rget? r2 pid = Option.none →
      (pid, rget r1 pid) = (pid, rget r2 pid)) :=
  ⟨build_other_map pid h fresh records,
   fun r hr => by simp [rget, hr],
   fun r1 r2 h1 h2 => by simp [rget, h1, h2]⟩

/-- C9 witness: a `sku`-keyed batch maps every record (also one lacking
`sku`, which gets the `None` filter) and skips nothing. -/
theorem c9_witness :
    (("sku" == "_id") = false) ∧
    (build_bulk_operations "sku" 0 [recSku, recNoId] =
      ([recSku, recNoId].map
         (fun r => WriteOp.updateOne ("sku", rget r "sku") (UpdateDoc.set r) true),
       [], 0) ∧
     (∀ r : Rec, rget? r "sku" = Option.none → rget r "sku" = Value.none) ∧
     (∀ r1 r2 : Rec, rget? r1 "sku" = Option.none → rget? r2 "sku" = Option.none →
       ("sku", rget r1 "sku") = ("sku", rget r2 "sku"))) :=
  ⟨rfl, c9_non_id_key_raw "sku" 0 [recSku, recNoId] rfl⟩

/-- C10: the summary line of a keyed batch reports the length of the
original records list (skipped records included), and every record became
exactly one operation or one skip diagnostic, so the reported count equals
submitted operations plus skipped records. -/
theorem c10_upload_count (be : Backend) (kpr : List String) (pid sn : String)
    (records : List Rec) (res : BatchResult)
    (h : process_batch be ⟨pid :: kpr, sn⟩ records = Except.ok res) :
    LogEvent.uploadInfo records.length (quote sn) ∈ res.logs ∧
    (build_bulk_operations pid 0 records).1.length +
      (build_bulk_operations pid 0 records).2.1.length = records.length := by
  refine ⟨?_, build_length pid 0 records⟩
  unfold process_batch at h
  by_cases he : (build_bulk_operations pid 0 records).1.isEmpty = true
  · simp only [he, if_true] at h
    rw [← Except.ok.inj h]
    simp
  · simp only [he, if_false] at h
    cases hb : Backend.bulkWrite be (build_bulk_operations pid 0 records).1 with
    | error e => rw [hb] at h; exact Except.noConfusion h
    | ok result =>
      rw [hb] at h
      rw [← Except.ok.inj h]
      simp

/-- C10 witness: a batch of two records, one submitted and one skipped,
reports two records uploaded. -/
theorem c10_witness :
    process_batch beOk ⟨["_id"], "stream"⟩ [recGood, recBad] =
      Except.ok
        { calls := [BackendCall.bulkWrite
            [WriteOp.updateOne ("_id", Value.oid "507f1f77bcf86cd799439011")
              (UpdateDoc.set [("name", Value.str "a")]) true] false]
          logs := [LogEvent.warnMalformed (Value.str "bad") (invalidIdMsg "bad"),
                   LogEvent.bulkInfo 0 1,
                   LogEvent.uploadInfo 2 "stream"]
          finalRecords := [] } ∧
    (LogEvent.uploadInfo ([recGood, recBad] : List Rec).length (quote "stream") ∈
      [LogEvent.warnMalformed (Value.str "bad") (invalidIdMsg "bad"),
       LogEvent.bulkInfo 0 1,
       LogEvent.uploadInfo 2 "stream"] ∧
     (build_bulk_operations "_id" 0 [recGood, recBad]).1.length +
       (build_bulk_operations "_id" 0 [recGood, recBad]).2.1.length =
       ([recGood, recBad] : List Rec).length) :=
  ⟨rfl, c10_upload_count beOk [] "_id" "stream" [recGood, recBad] _ rfl⟩

end TargetMongoDb
